import Mathlib

/-!
Shallow embedding of the gestorlead/studio backend model layer
(src/backend/app/models) and its generic CRUD layer
(src/backend/app/crud/base.py), with theorems checking the
natural-language specification against the code.

Conventions of the embedding:
* Python `datetime` values are modelled as an abstract timestamp type
  (integers); methods that read the clock take the current time as an
  explicit `now` argument.
* JSON columns are modelled as uninterpreted payloads; none of the verified
  methods inspects their structure.
* Python `int` fields are `Int` (or `Nat` where the column and the code
  keep them non-negative by construction, as with counters that are only
  ever assigned 0 or incremented).
* Methods that mutate `self` become functions `State -> State`; a method
  that can `raise ValueError` returns the post state paired with
  `Except String result` (the `.error` branch corresponds to the raise,
  which in the source always happens before any mutation).
* `Agent.update_execution_stats` (agent.py) is not embedded: the values
  it stores pass through IEEE-754 float division, float-Decimal
  conversions and `str(float)` round-trips, whose bit-level behaviour is
  outside this integer/rational development.
-/

namespace Studio

/-- Timestamps, abstractly: the verified code only stores them, compares
them with None, and subtracts them (in milliseconds). -/
abbrev Timestamp := Int

/-- Uninterpreted stand-in for a JSON column value. -/
structure JsonValue where
  raw : String
deriving DecidableEq

/-! ## Campaign (src/backend/app/models/campaign.py) -/

/-- Column state of `Campaign` (campaign.py, lines 30-126). Relationship
attributes are omitted: the verified methods never touch them. -/
structure Campaign where
  id : String
  user_id : Int
  campaign_type_id : Option Int
  name : String
  description : Option String
  campaign_type : Option String
  status : String
  channels : JsonValue
  target_audience : Option JsonValue
  objectives : JsonValue
  budget_credits : Option Int
  spent_credits : Int
  content_templates : Option JsonValue
  scheduling : Option JsonValue
  automation_rules : Option JsonValue
  metrics : Option JsonValue
  a_b_testing : Option JsonValue
  start_date : Option Timestamp
  end_date : Option Timestamp
  launched_at : Option Timestamp
  completed_at : Option Timestamp
deriving DecidableEq

/-- Check constraint `spent_within_budget` (campaign.py line 153):
`spent_credits <= COALESCE(budget_credits, spent_credits)`. -/
def Campaign.spent_within_budget (c : Campaign) : Prop :=
  c.spent_credits ≤ c.budget_credits.getD c.spent_credits

instance (c : Campaign) : Decidable c.spent_within_budget := by
  unfold Campaign.spent_within_budget; infer_instance

/-- `Campaign.launch` (campaign.py line 229). -/
def Campaign.launch (c : Campaign) (now : Timestamp) : Campaign :=
  if c.status = "draft" then
    { c with status := "active", launched_at := some now }
  else c

/-- `Campaign.pause` (campaign.py line 235). -/
def Campaign.pause (c : Campaign) : Campaign :=
  if c.status = "active" then { c with status := "paused" } else c

/-- `Campaign.resume` (campaign.py line 240). -/
def Campaign.resume (c : Campaign) : Campaign :=
  if c.status = "paused" then { c with status := "active" } else c

/-- `Campaign.complete` (campaign.py line 245). -/
def Campaign.complete (c : Campaign) (now : Timestamp) : Campaign :=
  if c.status = "active" ∨ c.status = "paused" then
    { c with status := "completed", completed_at := some now }
  else c

/-- `Campaign.cancel` (campaign.py line 251). A `datetime` is always
truthy in Python, so `if not self.completed_at` is `completed_at = none`. -/
def Campaign.cancel (c : Campaign) (now : Timestamp) : Campaign :=
  if c.status = "draft" ∨ c.status = "scheduled" ∨ c.status = "active" ∨ c.status = "paused" then
    let c1 := { c with status := "cancelled" }
    if c1.completed_at = none then { c1 with completed_at := some now } else c1
  else c

/-- `Campaign.archive` (campaign.py line 258). -/
def Campaign.archive (c : Campaign) : Campaign :=
  if c.status = "completed" ∨ c.status = "cancelled" then
    { c with status := "archived" }
  else c

/-- `Campaign.can_spend_credits` (campaign.py line 263). -/
def Campaign.can_spend_credits (c : Campaign) (amount : Int) : Bool :=
  match c.budget_credits with
  | none => true
  | some b => decide (c.spent_credits + amount ≤ b)

/-- `Campaign.spend_credits` (campaign.py line 277); the `.error`
result is the `ValueError`, raised before any mutation. -/
def Campaign.spend_credits (c : Campaign) (amount : Int) : Campaign × Except String Bool :=
  if ! c.can_spend_credits amount then
    (c, .error "Insufficient budget")
  else
    ({ c with spent_credits := c.spent_credits + amount }, .ok true)

/-- A concrete draft campaign used as an evaluation point. -/
def sampleCampaign : Campaign :=
  { id := "c-1", user_id := 1, campaign_type_id := none, name := "launch week"
    description := none, campaign_type := none, status := "draft"
    channels := ⟨"[email]"⟩, target_audience := none, objectives := ⟨"[reach]"⟩
    budget_credits := some 100, spent_credits := 40
    content_templates := none, scheduling := none, automation_rules := none
    metrics := none, a_b_testing := none
    start_date := none, end_date := none, launched_at := none, completed_at := none }

/-- A concrete active campaign used as an evaluation point. -/
def sampleActiveCampaign : Campaign :=
  { sampleCampaign with id := "c-2", status := "active" }

/-- C1: for a campaign satisfying the `spent_within_budget` constraint and
any integer amount, `spend_credits` raises exactly when `can_spend_credits`
is false (leaving the campaign unchanged), otherwise adds the amount to
`spent_credits` and returns True; in both cases `spent_within_budget`
still holds afterwards. -/
theorem Campaign.spend_credits_spec (c : Campaign) (amount : Int)
    (h : c.spent_within_budget) :
    (c.can_spend_credits amount = false →
        c.spend_credits amount = (c, .error "Insufficient budget")) ∧
    (c.can_spend_credits amount = true →
        c.spend_credits amount =
          ({ c with spent_credits := c.spent_credits + amount }, .ok true)) ∧
    (c.spend_credits amount).1.spent_within_budget := by
  unfold Campaign.spend_credits
  refine ⟨fun hcant => by rw [hcant]; rfl, fun hcan => by rw [hcan]; rfl, ?_⟩
  by_cases hcan : c.can_spend_credits amount
  · rw [hcan]
    simp only [Bool.not_true, if_false]
    unfold Campaign.can_spend_credits at hcan
    unfold Campaign.spent_within_budget at h ⊢
    cases hb : c.budget_credits with
    | none => simp [hb]
    | some b => rw [hb] at hcan; simp [hb] at hcan ⊢; omega
  · rw [Bool.not_eq_true] at hcan
    rw [hcan]
    simpa using h

/-- C1 witness: evaluation of `spend_credits_spec` on a concrete campaign. -/
theorem Campaign.spend_credits_spec_witness :
    sampleCampaign.spend_credits 10 =
      ({ sampleCampaign with spent_credits := sampleCampaign.spent_credits + 10 }, .ok true) :=
  (Campaign.spend_credits_spec sampleCampaign 10 (by decide)).2.1 (by decide)

/-- C6: `launch` moves the campaign to status active and stamps
`launched_at` exactly when the current status is draft, touching no other
field; on any other status it changes nothing at all. -/
theorem Campaign.launch_spec (c : Campaign) (now : Timestamp) :
    (c.status = "draft" →
        c.launch now = { c with status := "active", launched_at := some now }) ∧
    (c.status ≠ "draft" → c.launch now = c) := by
  unfold Campaign.launch
  constructor
  · intro h; rw [if_pos h]
  · intro h; rw [if_neg h]

/-- C6 witness: evaluation of `launch_spec` on both a draft and a
non-draft campaign. -/
theorem Campaign.launch_spec_witness :
    sampleCampaign.launch 7 =
        { sampleCampaign with status := "active", launched_at := some 7 } ∧
    sampleActiveCampaign.launch 7 = sampleActiveCampaign :=
  ⟨(Campaign.launch_spec sampleCampaign 7).1 rfl,
   (Campaign.launch_spec sampleActiveCampaign 7).2 (by decide)⟩

/-! ## Campaign lifecycle action sequences (for C10) -/

/-- One call to one of the six lifecycle methods of `Campaign`
(campaign.py lines 229-261); clock-reading methods carry the time they
observe. -/
inductive CampaignAction where
  | launch (now : Timestamp)
  | pause
  | resume
  | complete (now : Timestamp)
  | cancel (now : Timestamp)
  | archive
deriving DecidableEq

/-- Dispatch one lifecycle action on a campaign. -/
def Campaign.apply_action (c : Campaign) : CampaignAction → Campaign
  | .launch now => c.launch now
  | .pause => c.pause
  | .resume => c.resume
  | .complete now => c.complete now
  | .cancel now => c.cancel now
  | .archive => c.archive

/-- Run a sequence of lifecycle actions from left to right. -/
def Campaign.run_actions (c : Campaign) (acts : List CampaignAction) : Campaign :=
  acts.foldl Campaign.apply_action c

/-- The invariant of C10: a campaign in a terminal status carries a
completion timestamp. -/
def Campaign.terminal_has_completed_at (c : Campaign) : Prop :=
  (c.status = "completed" ∨ c.status = "cancelled" ∨ c.status = "archived") →
    c.completed_at ≠ none

instance (c : Campaign) : Decidable c.terminal_has_completed_at := by
  unfold Campaign.terminal_has_completed_at; infer_instance

/-- Each lifecycle method preserves the C10 invariant. -/
theorem Campaign.apply_action_preserves_terminal (c : Campaign) (a : CampaignAction)
    (h : c.terminal_has_completed_at) :
    (c.apply_action a).terminal_has_completed_at := by
  unfold Campaign.terminal_has_completed_at at h ⊢
  cases a with
  | launch now =>
      simp only [Campaign.apply_action, Campaign.launch]
      split
      · intro hst; simp at hst
      · exact h
  | pause =>
      simp only [Campaign.apply_action, Campaign.pause]
      split
      · intro hst; simp at hst
      · exact h
  | resume =>
      simp only [Campaign.apply_action, Campaign.resume]
      split
      · intro hst; simp at hst
      · exact h
  | complete now =>
      simp only [Campaign.apply_action, Campaign.complete]
      split
      · intro _; simp
      · exact h
  | cancel now =>
      simp only [Campaign.apply_action, Campaign.cancel]
      split
      · split
        · intro _; simp
        · next hne => intro _; simpa using hne
      · exact h
  | archive =>
      simp only [Campaign.apply_action, Campaign.archive]
      split
      · next hst => intro _; exact h (by tauto)
      · exact h

/-- C10: starting from a draft campaign with no completion timestamp,
after any sequence of lifecycle method calls, every reachable state whose
status is completed, cancelled or archived has a non-None `completed_at`. -/
theorem Campaign.run_actions_terminal_completed_at (c : Campaign)
    (acts : List CampaignAction)
    (hstatus : c.status = "draft") (_hdone : c.completed_at = none) :
    (c.run_actions acts).terminal_has_completed_at := by
  have hinv : c.terminal_has_completed_at := by
    unfold Campaign.terminal_has_completed_at
    rw [hstatus]; simp
  clear hstatus _hdone
  unfold Campaign.run_actions
  induction acts generalizing c with
  | nil => exact hinv
  | cons a rest ih =>
      exact ih _ (Campaign.apply_action_preserves_terminal c a hinv)

/-- C10 witness: evaluation of `run_actions_terminal_completed_at` on a
concrete draft campaign and a concrete action sequence. -/
theorem Campaign.run_actions_terminal_completed_at_witness :
    (sampleCampaign.run_actions
        [.launch 1, .pause, .resume, .complete 2, .archive]).terminal_has_completed_at :=
  Campaign.run_actions_terminal_completed_at sampleCampaign
    [.launch 1, .pause, .resume, .complete 2, .archive] rfl rfl

/-! ## User (src/backend/app/models/user.py) -/

/-- Column state of `User` (user.py, lines 31-89). Relationship
attributes are omitted: the verified methods never touch them. -/
structure User where
  id : Int
  email : String
  google_id : Option String
  password_hash : Option String
  full_name : Option String
  avatar_url : Option String
  credit_balance : Int
  subscription_tier_id : Option Int
  is_active : Bool
  is_admin : Bool
  preferences : Option JsonValue
  last_login_at : Option Timestamp
  email_verified_at : Option Timestamp
deriving DecidableEq

/-- `User.can_spend_credits` (user.py line 166). -/
def User.can_spend_credits (u : User) (amount : Int) : Bool :=
  decide (u.credit_balance ≥ amount)

/-- `User.spend_credits` (user.py line 178); the `.error` result is the
`ValueError`, raised before any mutation. -/
def User.spend_credits (u : User) (amount : Int) : User × Except String Bool :=
  if ! u.can_spend_credits amount then
    (u, .error "Insufficient credits")
  else
    ({ u with credit_balance := u.credit_balance - amount }, .ok true)

/-- A concrete user used as an evaluation point. -/
def sampleUser : User :=
  { id := 1, email := "a@example.com", google_id := none, password_hash := none
    full_name := none, avatar_url := none, credit_balance := 25
    subscription_tier_id := none, is_active := true, is_admin := false
    preferences := none, last_login_at := none, email_verified_at := none }

/-- C2: `spend_credits` raises exactly when amount exceeds the balance,
leaving the balance unchanged in that case; otherwise it subtracts the
amount and returns True, and a non-negative balance stays non-negative. -/
theorem User.user_spend_credits_spec (u : User) (amount : Int) :
    (amount > u.credit_balance →
        u.spend_credits amount = (u, .error "Insufficient credits")) ∧
    (amount ≤ u.credit_balance →
        u.spend_credits amount =
          ({ u with credit_balance := u.credit_balance - amount }, .ok true)) ∧
    (0 ≤ u.credit_balance → 0 ≤ (u.spend_credits amount).1.credit_balance) := by
  unfold User.spend_credits User.can_spend_credits
  refine ⟨?_, ?_, ?_⟩
  · intro hgt
    rw [if_pos]
    simp only [Bool.not_eq_eq_eq_not, Bool.not_true, decide_eq_false_iff_not]
    omega
  · intro hle
    rw [if_neg]
    simp only [Bool.not_eq_eq_eq_not, Bool.not_true, decide_eq_false_iff_not]
    omega
  · intro hnn
    by_cases hle : amount ≤ u.credit_balance
    · rw [if_neg]
      · simpa using by omega
      · simp only [Bool.not_eq_eq_eq_not, Bool.not_true, decide_eq_false_iff_not]
        omega
    · rw [if_pos]
      · exact hnn
      · simp only [Bool.not_eq_eq_eq_not, Bool.not_true, decide_eq_false_iff_not]
        omega

/-- C2 witness: evaluation of `spend_credits_spec` on a concrete user,
with all three hypotheses discharged on matching inputs. -/
theorem User.user_spend_credits_spec_witness :
    (sampleUser.spend_credits 30 = (sampleUser, .error "Insufficient credits")) ∧
    (sampleUser.spend_credits 10 =
        ({ sampleUser with credit_balance := sampleUser.credit_balance - 10 }, .ok true)) ∧
    0 ≤ (sampleUser.spend_credits 10).1.credit_balance :=
  ⟨(User.user_spend_credits_spec sampleUser 30).1 (by decide),
   (User.user_spend_credits_spec sampleUser 10).2.1 (by decide),
   (User.user_spend_credits_spec sampleUser 10).2.2 (by decide)⟩

/-! ## Task (src/backend/app/models/task.py) -/

/-- Column state of `Task` (task.py, lines 31-131). Relationship
attributes are omitted: the verified methods never touch them. -/
structure Task where
  id : String
  user_id : Int
  task_type_id : Option Int
  provider_model_id : Option Int
  campaign_id : Option String
  task_type : Option String
  provider : Option String
  model : Option String
  status : String
  priority : String
  credit_cost : Int
  estimated_cost : Option Int
  request_payload : JsonValue
  result_payload : Option JsonValue
  error_message : Option String
  error_code : Option String
  execution_time_ms : Option Int
  retry_count : Int
  scheduled_at : Option Timestamp
  started_at : Option Timestamp
  completed_at : Option Timestamp
  expires_at : Option Timestamp
deriving DecidableEq

/-- `Task.start_execution` (task.py line 224). -/
def Task.start_execution (t : Task) (now : Timestamp) : Task :=
  { t with status := "processing", started_at := some now }

/-- `Task.complete_execution` (task.py line 229). When `started_at` is
set, the source stores `int(delta.total_seconds() * 1000)`, which goes
through IEEE-754 float seconds and can deviate from the exact
millisecond difference by one unit; the embedding stores the exact
difference `now - s`. No theorem below depends on the value of
`execution_time_ms`, only on `status`. -/
def Task.complete_execution (t : Task) (result : JsonValue) (now : Timestamp) : Task :=
  let t1 := { t with status := "completed", completed_at := some now,
                     result_payload := some result }
  match t1.started_at with
  | some s => { t1 with execution_time_ms := some (now - s) }
  | none => t1

/-- `Task.fail_execution` (task.py line 245). -/
def Task.fail_execution (t : Task) (msg : String) (code : Option String)
    (now : Timestamp) : Task :=
  { t with status := "failed", completed_at := some now,
           error_message := some msg, error_code := code }

/-- `Task.retry_execution` (task.py line 258). -/
def Task.retry_execution (t : Task) : Task :=
  { t with retry_count := t.retry_count + 1, status := "pending",
           started_at := none, completed_at := none,
           error_message := none, error_code := none }

/-- `Task.cancel_execution` (task.py line 267). A `datetime` is always
truthy in Python, so `if not self.completed_at` is `completed_at = none`. -/
def Task.cancel_execution (t : Task) (now : Timestamp) : Task :=
  let t1 := { t with status := "cancelled" }
  if t1.completed_at = none then { t1 with completed_at := some now } else t1

/-- The seven values allowed by the `valid_task_status` check constraint
(task.py line 163). -/
def TaskStatuses : List String :=
  ["pending", "queued", "processing", "completed", "failed", "cancelled", "retrying"]

/-- One call to one of the five execution-state methods of `Task`
(task.py lines 224-271); clock-reading methods carry the time they
observe. -/
inductive TaskAction where
  | start (now : Timestamp)
  | complete (result : JsonValue) (now : Timestamp)
  | fail (msg : String) (code : Option String) (now : Timestamp)
  | retry
  | cancel (now : Timestamp)
deriving DecidableEq

/-- Dispatch one execution-state action on a task. -/
def Task.apply_action (t : Task) : TaskAction → Task
  | .start now => t.start_execution now
  | .complete result now => t.complete_execution result now
  | .fail msg code now => t.fail_execution msg code now
  | .retry => t.retry_execution
  | .cancel now => t.cancel_execution now

/-- Run a sequence of execution-state actions from left to right. -/
def Task.run_actions (t : Task) (acts : List TaskAction) : Task :=
  acts.foldl Task.apply_action t

/-- Each execution-state method sets `status` to one of the seven
enumerated values, whatever the prior state. -/
theorem Task.apply_action_status_mem (t : Task) (a : TaskAction) :
    (t.apply_action a).status ∈ TaskStatuses := by
  cases a with
  | start now =>
      simp [Task.apply_action, Task.start_execution, TaskStatuses]
  | complete result now =>
      simp only [Task.apply_action, Task.complete_execution]
      cases t.started_at <;> simp [TaskStatuses]
  | fail msg code now =>
      simp [Task.apply_action, Task.fail_execution, TaskStatuses]
  | retry =>
      simp [Task.apply_action, Task.retry_execution, TaskStatuses]
  | cancel now =>
      simp only [Task.apply_action, Task.cancel_execution]
      split <;> simp [TaskStatuses]

/-- C3: from a task whose status is one of the seven enumerated values,
any sequence of execution-state method calls keeps the status in that
set (each single call already lands in the set unconditionally). -/
theorem Task.run_actions_status_mem (t : Task) (acts : List TaskAction)
    (h : t.status ∈ TaskStatuses) :
    (t.run_actions acts).status ∈ TaskStatuses := by
  unfold Task.run_actions
  induction acts generalizing t with
  | nil => exact h
  | cons a rest ih =>
      exact ih (t.apply_action a) (Task.apply_action_status_mem t a)

/-- A concrete pending task used as an evaluation point. -/
def sampleTask : Task :=
  { id := "t-1", user_id := 1, task_type_id := none, provider_model_id := none
    campaign_id := none, task_type := some "text_generation"
    provider := some "openai", model := some "gpt-4", status := "pending"
    priority := "medium", credit_cost := 3, estimated_cost := none
    request_payload := ⟨"prompt"⟩, result_payload := none
    error_message := none, error_code := none, execution_time_ms := none
    retry_count := 0, scheduled_at := none, started_at := none
    completed_at := none, expires_at := none }

/-- C3 witness: evaluation of `run_actions_status_mem` on a concrete
task and a concrete method sequence. -/
theorem Task.run_actions_status_mem_witness :
    (sampleTask.run_actions
        [.start 1, .fail "timeout" none 2, .retry, .start 3,
         .complete ⟨"output"⟩ 4]).status ∈ TaskStatuses :=
  Task.run_actions_status_mem sampleTask
    [.start 1, .fail "timeout" none 2, .retry, .start 3, .complete ⟨"output"⟩ 4]
    (by decide)

/-- C9: `retry_execution` adds one to `retry_count`, resets the status
to pending, clears the two execution timestamps and both error fields,
and leaves every other field of the task unchanged. -/
theorem Task.retry_execution_spec (t : Task) :
    t.retry_execution =
      { t with retry_count := t.retry_count + 1, status := "pending",
               started_at := none, completed_at := none,
               error_message := none, error_code := none } := rfl

/-! ## APIKey (src/backend/app/models/api_key.py) -/

/-- Column state of `APIKey` (api_key.py, lines 31-109). Relationship
attributes are omitted. The JSON column `usage_stats` is modelled by the
one entry the verified methods write: `usage_stats_last_validation`
holds the `last_validation` record (status, error message, timestamp)
that `update_validation_status` stores into `usage_stats`. -/
structure APIKey where
  id : String
  user_id : Int
  provider_id : Option Int
  provider : Option String
  key_name : String
  encrypted_key : String
  key_hash : String
  permissions : Option JsonValue
  usage_limits : Option JsonValue
  usage_stats_last_validation : Option (String × Option String × Timestamp)
  is_active : Bool
  is_default : Bool
  expires_at : Option Timestamp
  last_used_at : Option Timestamp
  last_validated_at : Option Timestamp
  validation_status : Option String
  error_count : Int
deriving DecidableEq

/-- `APIKey.activate` (api_key.py line 185). -/
def APIKey.activate (k : APIKey) : APIKey := { k with is_active := true }

/-- `APIKey.deactivate` (api_key.py line 189). -/
def APIKey.deactivate (k : APIKey) : APIKey := { k with is_active := false }

/-- `APIKey.reset_error_count` (api_key.py line 222). -/
def APIKey.reset_error_count (k : APIKey) : APIKey := { k with error_count := 0 }

/-- `APIKey.increment_error_count` (api_key.py line 213): add one to the
error counter; from ten errors on, deactivate the key and mark it
invalid. -/
def APIKey.increment_error_count (k : APIKey) : APIKey :=
  let k1 := { k with error_count := k.error_count + 1 }
  if k1.error_count ≥ 10 then
    { k1.deactivate with validation_status := some "invalid" }
  else k1

/-- The status whitelist of `update_validation_status`
(api_key.py line 234). -/
def APIKey.valid_statuses : List String :=
  ["valid", "invalid", "expired", "rate_limited", "unknown"]

/-- `APIKey.update_validation_status` (api_key.py line 226); the
`.error` result is the `ValueError`, raised before any mutation. -/
def APIKey.update_validation_status (k : APIKey) (status : String)
    (error_message : Option String) (now : Timestamp) : Except String APIKey :=
  if status ∉ APIKey.valid_statuses then
    .error "Invalid validation status"
  else
    let k1 := { k with validation_status := some status, last_validated_at := some now }
    let k2 :=
      if status = "valid" then
        k1.reset_error_count.activate
      else if status = "invalid" ∨ status = "expired" then
        k1.increment_error_count.deactivate
      else k1
    .ok { k2 with usage_stats_last_validation := some (status, error_message, now) }

/-- A concrete healthy key used as an evaluation point. -/
def sampleKey : APIKey :=
  { id := "k-1", user_id := 1, provider_id := none, provider := some "openai"
    key_name := "main", encrypted_key := "enc", key_hash := "hash"
    permissions := none, usage_limits := none, usage_stats_last_validation := none
    is_active := true, is_default := false, expires_at := none
    last_used_at := none, last_validated_at := none
    validation_status := some "unknown", error_count := 0 }

/-- A concrete key that already accumulated nine errors. -/
def sampleKeyNineErrors : APIKey :=
  { sampleKey with id := "k-9", error_count := 9 }

/-- C8: `increment_error_count` adds exactly one to `error_count`; when
the new count reaches ten it also deactivates the key and marks it
invalid, and below ten it changes no other field. -/
theorem APIKey.increment_error_count_spec (k : APIKey) :
    (k.error_count + 1 ≥ 10 →
        k.increment_error_count =
          { k with error_count := k.error_count + 1, is_active := false,
                   validation_status := some "invalid" }) ∧
    (k.error_count + 1 < 10 →
        k.increment_error_count = { k with error_count := k.error_count + 1 }) := by
  unfold APIKey.increment_error_count APIKey.deactivate
  constructor
  · intro hge
    rw [if_pos hge]
  · intro hlt
    rw [if_neg (show ¬ (k.error_count + 1 ≥ 10) by omega)]

/-- C8 witness: evaluation of `increment_error_count_spec` on concrete
keys on both sides of the threshold. -/
theorem APIKey.increment_error_count_spec_witness :
    (sampleKeyNineErrors.increment_error_count =
        { sampleKeyNineErrors with error_count := 10, is_active := false,
                                   validation_status := some "invalid" }) ∧
    (sampleKey.increment_error_count = { sampleKey with error_count := 1 }) :=
  ⟨(APIKey.increment_error_count_spec sampleKeyNineErrors).1 (by decide),
   (APIKey.increment_error_count_spec sampleKey).2 (by decide)⟩

/-- C4 counterexample: on a key with nine prior errors,
`update_validation_status` accepts the status expired but ends with
`validation_status` invalid, because the nested `increment_error_count`
reaches the ten-error threshold and overwrites the just-stored status. -/
theorem APIKey.update_validation_status_expired_counterexample :
    sampleKeyNineErrors.update_validation_status "expired" none 5 =
      .ok { sampleKeyNineErrors with
              validation_status := some "invalid", last_validated_at := some 5,
              error_count := 10, is_active := false,
              usage_stats_last_validation := some ("expired", none, 5) } ∧
    (some "invalid" : Option String) ≠ some "expired" := by
  exact ⟨rfl, by decide⟩

/-- C4 (amended): `update_validation_status` raises exactly on a status
outside the whitelist, changing nothing; an accepted status is stored in
`validation_status`, except that for invalid or expired the error count
grows by one, the key is deactivated, and when the new count reaches ten
the stored status is invalid (overwriting expired); valid resets the
error count to zero and reactivates the key. -/
theorem APIKey.update_validation_status_spec (k : APIKey) (status : String)
    (em : Option String) (now : Timestamp) :
    (status ∉ APIKey.valid_statuses →
        k.update_validation_status status em now = .error "Invalid validation status") ∧
    (status = "valid" →
        k.update_validation_status status em now = .ok
          { k with validation_status := some "valid", last_validated_at := some now,
                   error_count := 0, is_active := true,
                   usage_stats_last_validation := some (status, em, now) }) ∧
    ((status = "invalid" ∨ status = "expired") →
        k.update_validation_status status em now = .ok
          { k with
              validation_status :=
                some (if k.error_count + 1 ≥ 10 then "invalid" else status),
              last_validated_at := some now,
              error_count := k.error_count + 1, is_active := false,
              usage_stats_last_validation := some (status, em, now) }) ∧
    ((status = "rate_limited" ∨ status = "unknown") →
        k.update_validation_status status em now = .ok
          { k with validation_status := some status, last_validated_at := some now,
                   usage_stats_last_validation := some (status, em, now) }) := by
  refine ⟨?_, ?_, ?_, ?_⟩
  · intro hnot
    unfold APIKey.update_validation_status
    rw [if_pos hnot]
  · intro h
    subst h
    simp [APIKey.update_validation_status, APIKey.valid_statuses,
          APIKey.reset_error_count, APIKey.activate]
  · intro h
    by_cases hge : k.error_count + 1 ≥ 10
    · rcases h with h | h <;> subst h <;>
        simp [APIKey.update_validation_status, APIKey.valid_statuses,
              APIKey.increment_error_count, APIKey.deactivate, hge]
    · rcases h with h | h <;> subst h <;>
        simp [APIKey.update_validation_status, APIKey.valid_statuses,
              APIKey.increment_error_count, APIKey.deactivate, hge]
  · intro h
    rcases h with h | h <;> subst h <;>
      simp [APIKey.update_validation_status, APIKey.valid_statuses]

/-- C4 witness: evaluation of `update_validation_status_spec` on a
concrete key, discharging the hypothesis of each branch. -/
theorem APIKey.update_validation_status_spec_witness :
    (sampleKey.update_validation_status "bogus" none 5 =
        .error "Invalid validation status") ∧
    (sampleKey.update_validation_status "valid" none 5 = .ok
        { sampleKey with validation_status := some "valid", last_validated_at := some 5,
                         error_count := 0, is_active := true,
                         usage_stats_last_validation := some ("valid", none, 5) }) ∧
    (sampleKey.update_validation_status "expired" none 5 = .ok
        { sampleKey with validation_status := some "expired", last_validated_at := some 5,
                         error_count := 1, is_active := false,
                         usage_stats_last_validation := some ("expired", none, 5) }) ∧
    (sampleKey.update_validation_status "rate_limited" none 5 = .ok
        { sampleKey with validation_status := some "rate_limited",
                         last_validated_at := some 5,
                         usage_stats_last_validation := some ("rate_limited", none, 5) }) := by
  refine ⟨?_, ?_, ?_, ?_⟩
  · exact (APIKey.update_validation_status_spec sampleKey "bogus" none 5).1 (by decide)
  · exact (APIKey.update_validation_status_spec sampleKey "valid" none 5).2.1 rfl
  · have h := (APIKey.update_validation_status_spec sampleKey "expired" none 5).2.2.1
      (Or.inr rfl)
    simpa [sampleKey] using h
  · exact (APIKey.update_validation_status_spec sampleKey "rate_limited" none 5).2.2.2
      (Or.inl rfl)

/-! ## CRUDBase (src/backend/app/crud/base.py)

The database session is modelled as the list of rows of the model table
in query order; `hasUserId` models `hasattr(self.model, "user_id")`,
`query.filter` keeps the rows matching the predicate, and
`offset(skip).limit(limit)` drops `skip` rows then takes `limit`. -/

/-- A row of an arbitrary model table: its primary key, its `user_id`
column when the model has one, and its remaining payload. -/
structure DBRecord where
  id : Int
  user_id : Int
  payload : String
deriving DecidableEq

/-- The query built by `CRUDBase.get_multi` before pagination
(base.py lines 45-49): all rows, filtered by `user_id` when a user id is
supplied and the model has a `user_id` column. -/
def CRUDBase.filtered_query (db : List DBRecord) (hasUserId : Bool)
    (user_id : Option Int) : List DBRecord :=
  match user_id with
  | some uid => if hasUserId then db.filter (fun r => r.user_id == uid) else db
  | none => db

/-- `CRUDBase.get_multi` (base.py line 36). -/
def CRUDBase.get_multi (db : List DBRecord) (hasUserId : Bool)
    (skip limit : Nat) (user_id : Option Int) : List DBRecord :=
  ((CRUDBase.filtered_query db hasUserId user_id).drop skip).take limit

/-- C7: `get_multi` returns at most `limit` records, namely the first
`limit` of the filtered rows after dropping the first `skip`; and when a
user id is supplied and the model has a `user_id` column, every returned
record carries that user id. -/
theorem CRUDBase.get_multi_spec (db : List DBRecord) (hasUserId : Bool)
    (skip limit : Nat) (user_id : Option Int) :
    (CRUDBase.get_multi db hasUserId skip limit user_id).length ≤ limit ∧
    CRUDBase.get_multi db hasUserId skip limit user_id =
      ((CRUDBase.filtered_query db hasUserId user_id).drop skip).take limit ∧
    (∀ uid, user_id = some uid → hasUserId = true →
        ∀ r ∈ CRUDBase.get_multi db hasUserId skip limit user_id,
          r.user_id = uid) := by
  refine ⟨?_, rfl, ?_⟩
  · unfold CRUDBase.get_multi
    exact (List.length_take _ _).le.trans (min_le_left _ _)
  · intro uid huid hhas r hr
    subst huid hhas
    unfold CRUDBase.get_multi CRUDBase.filtered_query at hr
    simp only [if_pos] at hr
    have hmem : r ∈ (db.filter (fun r => r.user_id == uid)).drop skip :=
      List.mem_of_mem_take hr
    have hmem2 : r ∈ db.filter (fun r => r.user_id == uid) :=
      List.mem_of_mem_drop hmem
    have := List.of_mem_filter hmem2
    simpa using this

/-- A concrete table of three rows, two of them owned by user 7, used as
an evaluation point. -/
def sampleTable : List DBRecord :=
  [⟨1, 7, "alpha"⟩, ⟨2, 8, "beta"⟩, ⟨3, 7, "gamma"⟩]

/-- C7 witness: evaluation of `get_multi_spec` on the concrete table,
discharging the user-filter hypotheses. -/
theorem CRUDBase.get_multi_spec_witness :
    (CRUDBase.get_multi sampleTable true 1 2 (some 7)).length ≤ 2 ∧
    DBRecord.user_id ⟨3, 7, "gamma"⟩ = 7 := by
  have h := CRUDBase.get_multi_spec sampleTable true 1 2 (some 7)
  exact ⟨h.1, h.2.2 7 rfl rfl ⟨3, 7, "gamma"⟩ (by decide)⟩

end Studio
